import Mathlib

/-
Verification of the data-validation / data-transformation core of the
Network_security_MLOPS pipeline.

The embedding models a pandas DataFrame as an ordered list of named columns,
a column being a sequence of optional values (`none` is a missing value /
NaN).  External collaborators — the Kolmogorov–Smirnov test of the statistics
library, the CSV reader, the document store, the imputer — are passed in as
function parameters, exactly as the spec treats them (external collaborators
out of scope).  Fallible Python code (operations whose `try`/`except` wraps
any exception into `NetworkSecurityException`) is embedded as
`Except PipelineError`; file writes become explicit outputs (the drift report
value returned by `detect_dataset_drift` is the content written to the
configured report path).
-/

namespace NetworkSecurity

/-- A single named column of a tabular dataset: the name of the column together
with its ordered sequence of values; `none` models a missing value (NaN). -/
structure Column (α : Type) where
  name : String
  values : List (Option α)
  deriving Repr, DecidableEq

/-- A tabular dataset (pandas `DataFrame`): its ordered sequence of named
columns.  DataFrames read from CSV have pairwise-distinct column names
(the reader mangles duplicate headers), which theorems assume where needed. -/
abbrev DataFrame (α : Type) := List (Column α)

/-- The ordered list of column names of a dataset (`df.columns`). -/
def columnNames {α : Type} (df : DataFrame α) : List String :=
  df.map Column.name

/-- Column selection by name (`df[c]`): the values of the first column
carrying that name, or `none` when no column does (pandas raises `KeyError`
in that case, which the try blocks of the callers wrap). -/
def lookupColumn {α : Type} (df : DataFrame α) (c : String) : Option (List (Option α)) :=
  (df.find? fun col => col.name == c).map Column.values

/-- Dropping missing values from a column (`series.dropna()`). -/
def dropna {α : Type} (vs : List (Option α)) : List α :=
  vs.filterMap id

/-- The single wrapped error kind of the pipeline (`exceptions/exception.py`):
`NetworkSecurityException` carries the original cause (the source location it
also records is summarised into the cause text).  Every `except Exception`
block of the public operations re-raises this one kind. -/
inductive PipelineError where
  | networkSecurityException (cause : String) : PipelineError
  deriving Repr, DecidableEq

/-- One drift-report entry recorded for a compared column
(`{"p_value": ..., "drift_detected": ...}` in `detect_dataset_drift`).
The p-value is modelled as a rational number. -/
structure DriftEntry where
  p_value : ℚ
  drift_detected : Bool
  deriving Repr, DecidableEq

/-- The drift report: the insertion-ordered mapping from column name to its
entry, built by `detect_dataset_drift` and serialized to the report path. -/
abbrev DriftReport := List (String × DriftEntry)

/-- Default p-value threshold of `detect_dataset_drift` (`threshold=0.05`,
written as the rational `mkRat 5 100`, which equals `5 / 100`). -/
def default_threshold : ℚ := mkRat 5 100

/-- The per-column loop of `DataValidation.detect_dataset_drift`
(`for column in base_df.columns:`, data_validation.py lines 104–121).
The two trailing arguments are the Python accumulators `status` and `report`.
For each base column, `current_df[column]` is looked up first (a missing
column raises `KeyError`); then missing values are dropped on both sides;
if either side is empty the column is skipped; otherwise the two-sample
test `ks` produces the p-value, `drift_detected = (p_value < threshold)`,
the entry is appended to the report under the name of the column, and a detected
drift forces `status` to `false`.  Since column names are distinct for
CSV-read dataframes, `base_df[column]` is the own values of the iterated column. -/
def detect_drift_loop {α : Type} (ks : List α → List α → ℚ) (threshold : ℚ)
    (current : DataFrame α) :
    List (Column α) → Bool → DriftReport → Except PipelineError (Bool × DriftReport)
  | [], status, report => .ok (status, report)
  | col :: rest, status, report =>
    match lookupColumn current col.name with
    | none => .error (.networkSecurityException ("KeyError: " ++ col.name))
    | some cvals =>
      let d1 := dropna col.values
      let d2 := dropna cvals
      if d1.isEmpty || d2.isEmpty then
        detect_drift_loop ks threshold current rest status report
      else
        let p := ks d1 d2
        let dd := decide (p < threshold)
        detect_drift_loop ks threshold current rest
          (if dd then false else status)
          (report ++ [(col.name, ⟨p, dd⟩)])

/-- `DataValidation.detect_dataset_drift` (data_validation.py lines 85–129):
runs the per-column loop starting from `status = True`, `report = {}` and, on
success, returns the overall status together with the report content written
to `drift_report_file_path` (the YAML serialization itself is the external
writer collaborator; the report component is the written mapping).  Any
exception inside the loop propagates as the single wrapped pipeline error. -/
def detect_dataset_drift {α : Type} (ks : List α → List α → ℚ)
    (base current : DataFrame α) (threshold : ℚ) :
    Except PipelineError (Bool × DriftReport) :=
  detect_drift_loop ks threshold current base true []

/-- `DataValidation.validate_number_of_columns` (data_validation.py lines
63–83): compares the count of the declared schema columns
with the column count of the dataset;
total, returns a boolean and never raises on a mismatch. -/
def validate_number_of_columns {α : Type} (schemaColumns : List String)
    (df : DataFrame α) : Bool :=
  let expected_columns := schemaColumns.length
  let actual_columns := (columnNames df).length
  expected_columns == actual_columns

/-- `DataValidationConfig` (entity/config_entity.py): the path fields the
validation stage reads, modelled as opaque strings (path construction from
the pipeline config is plumbing). -/
structure DataValidationConfig where
  data_validation_dir : String
  valid_data_dir : String
  invalid_data_dir : String
  valid_train_file_path : String
  valid_test_file_path : String
  invalid_train_file_path : String
  invalid_test_file_path : String
  drift_report_file_path : String
  deriving Repr, DecidableEq

/-- Modelled from the spec: `entity/artifact_entity.py` is absent from the
sources; the fields follow the constructor call in
`DataIngestion.ingest_data` and the artifact description of the spec. -/
structure DataIngestArtifact where
  trained_file_path : String
  test_file_path : String
  deriving Repr, DecidableEq

/-- Modelled from the spec: `entity/artifact_entity.py` is absent from the
sources; the fields follow §3 "Validation result" of the spec and the
constructor call in `DataValidation.initiate_data_validation` (the two
invalid-path fields are optional, the rest mandatory). -/
structure DataValidationArtifact where
  validation_status : Bool
  valid_train_file_path : String
  valid_test_file_path : String
  invalid_train_file_path : Option String
  invalid_test_file_path : Option String
  drift_report_file_path : String
  deriving Repr, DecidableEq

/-- `DataValidation.initiate_data_validation` (data_validation.py lines
131–179): reads the two ingested CSVs (`readData` is `read_data`, the CSV
reader collaborator already wrapped to the pipeline error kind), computes the
column-count checks — whose results are only logged, never acted on — runs
drift detection with the default threshold, persists both dataframes verbatim
to the valid paths (external CSV writer), and returns the artifact with the
invalid-path fields set to `None`.  Any failing step propagates the single
wrapped error and no artifact is produced. -/
def initiate_data_validation {α : Type} (ks : List α → List α → ℚ)
    (readData : String → Except PipelineError (DataFrame α))
    (schemaColumns : List String) (cfg : DataValidationConfig)
    (ingest : DataIngestArtifact) : Except PipelineError DataValidationArtifact := do
  let train_df ← readData ingest.trained_file_path
  let test_df ← readData ingest.test_file_path
  let _train_cols_ok := validate_number_of_columns schemaColumns train_df
  let _test_cols_ok := validate_number_of_columns schemaColumns test_df
  let res ← detect_dataset_drift ks train_df test_df default_threshold
  .ok {
    validation_status := res.1
    valid_train_file_path := cfg.valid_train_file_path
    valid_test_file_path := cfg.valid_test_file_path
    invalid_train_file_path := none
    invalid_test_file_path := none
    drift_report_file_path := cfg.drift_report_file_path
  }

/-- The target column of the transformation stage
(`TARGET_COLUMN = "Result"` in constants/training_pipeline). -/
def TARGET_COLUMN : String := "Result"

/-- `df.drop(columns=[c])`: removes the named column; pandas raises
`KeyError` when the column is absent (default `errors="raise"`), which the
surrounding `try` wraps into the pipeline error. -/
def dropColumns {α : Type} (df : DataFrame α) (c : String) :
    Except PipelineError (DataFrame α) :=
  if c ∈ columnNames df then .ok (df.filter fun col => col.name != c)
  else .error (.networkSecurityException ("KeyError: " ++ c))

/-- `df[c]` where the absence of the column is an error (`KeyError`,
wrapped), as in the target selection of the transformation stage. -/
def selectColumn {α : Type} (df : DataFrame α) (c : String) :
    Except PipelineError (List (Option α)) :=
  match lookupColumn df c with
  | some vs => .ok vs
  | none => .error (.networkSecurityException ("KeyError: " ++ c))

/-- `series.replace(old, new)` on the target column
(`train_df[TARGET_COLUMN].replace(-1, 0)`): missing values stay missing. -/
def replaceValue (old new : ℚ) (vs : List (Option ℚ)) : List (Option ℚ) :=
  vs.map fun ov => ov.map fun v => if v = old then new else v

/-- `np.c_[features, target.to_numpy()]`: appends the target value to each
feature row; numpy raises on a row-count mismatch (wrapped). -/
def np_concat_cols (features : List (List ℚ)) (target : List (Option ℚ)) :
    Except PipelineError (List (List (Option ℚ))) :=
  if features.length = target.length then
    .ok (List.zipWith (fun row t => row.map some ++ [t]) features target)
  else .error (.networkSecurityException "ValueError: shape mismatch")

/-- Modelled from the spec: `DataTransformationConfig` is absent from
`entity/config_entity.py` in the sources; the fields follow the attribute
reads in `DataTransformation.initiate_data_transformation`. -/
structure DataTransformationConfig where
  transformed_object_file_path : String
  transformed_train_file_path : String
  transformed_test_file_path : String
  deriving Repr, DecidableEq

/-- Modelled from the spec: `entity/artifact_entity.py` is absent from the
sources; the fields follow the constructor call in
`DataTransformation.initiate_data_transformation`. -/
structure DataTransformationArtifact where
  transformed_object_file_path : String
  transformed_train_file_path : String
  transformed_test_file_path : String
  deriving Repr, DecidableEq

/-- `DataTransformation.initiate_data_transformation` (data_tranformation.py
lines 75–134): reads the validated CSVs; checks that the target column is
present in both splits but only logs on absence — no early return, recorded
here as the unused `_target_present` flag; drops the target from and selects
it out of each split (each a `KeyError` when the target is absent); remaps
the sentinel label `-1` to `0`; fits the imputer pipeline on the training
features and transforms both splits (`fit`/`transform` are the external
imputer collaborator, with `P` its fitted state); rebuilds the combined
arrays; persists arrays and preprocessor (external writers); and returns the
artifact of configured paths.  Any failing step propagates the single
wrapped error. -/
def initiate_data_transformation {P : Type}
    (readData : String → Except PipelineError (DataFrame ℚ))
    (fit : DataFrame ℚ → P) (transform : P → DataFrame ℚ → List (List ℚ))
    (cfg : DataTransformationConfig) (valArt : DataValidationArtifact) :
    Except PipelineError DataTransformationArtifact := do
  let train_df ← readData valArt.valid_train_file_path
  let test_df ← readData valArt.valid_test_file_path
  let _target_present :=
    decide (TARGET_COLUMN ∈ columnNames train_df) &&
      decide (TARGET_COLUMN ∈ columnNames test_df)
  let input_feature_train_df ← dropColumns train_df TARGET_COLUMN
  let rawTargetTrain ← selectColumn train_df TARGET_COLUMN
  let target_feature_train_df := replaceValue (-1) 0 rawTargetTrain
  let input_feature_test_df ← dropColumns test_df TARGET_COLUMN
  let rawTargetTest ← selectColumn test_df TARGET_COLUMN
  let target_feature_test_df := replaceValue (-1) 0 rawTargetTest
  let preprocessor := fit input_feature_train_df
  let transformed_input_train_feature := transform preprocessor input_feature_train_df
  let transformed_input_test_feature := transform preprocessor input_feature_test_df
  let _train_arr ← np_concat_cols transformed_input_train_feature target_feature_train_df
  let _test_arr ← np_concat_cols transformed_input_test_feature target_feature_test_df
  .ok {
    transformed_object_file_path := cfg.transformed_object_file_path
    transformed_train_file_path := cfg.transformed_train_file_path
    transformed_test_file_path := cfg.transformed_test_file_path
  }

/-- the sentinel replacement step of the ingestion stage: every occurrence of
the sentinel value becomes a missing value. -/
def replaceSentinel {α : Type} [DecidableEq α] (sentinel : α)
    (df : DataFrame α) : DataFrame α :=
  df.map fun col =>
    ⟨col.name, col.values.map fun ov =>
      ov.bind fun v => if v = sentinel then none else some v⟩

/-- `DataIngestionConfig` (entity/config_entity.py): the path fields the
embedded ingestion operation reads. -/
structure DataIngestionConfig where
  feature_store_file_path : String
  training_file_path : String
  test_file_path : String
  deriving Repr, DecidableEq

/-- `DataIngestion.export_collection_as_dataframe` (data_ingestion.py lines
36–64): the find result of the document store arrives as `data`; an empty
result raises `ValueError` (wrapped); otherwise the tabular collaborator
`mkDF` (`pd.DataFrame(data)`) builds the dataframe, the store-assigned
`_id` column is dropped when present, and the sentinel missing marker is
normalised to missing. -/
def export_collection_as_dataframe {α Doc : Type} [DecidableEq α]
    (mkDF : List Doc → DataFrame α) (naSentinel : α) (data : List Doc) :
    Except PipelineError (DataFrame α) :=
  if data.isEmpty then
    .error (.networkSecurityException "La collection est vide ou inaccessible.")
  else
    let df := mkDF data
    let df2 :=
      if "_id" ∈ columnNames df then df.filter (fun col => col.name != "_id")
      else df
    .ok (replaceSentinel naSentinel df2)

/-- `DataIngestion.ingest_data` (data_ingestion.py lines 115–137): exports
the collection, passes the dataframe through the feature store (external CSV
writer), splits it into train and test (`train_test_split` with the fixed
seed is the external collaborator `split`) and writes both (external
writer), then returns the ingestion artifact carrying the configured paths.
Any failing step propagates the single wrapped error. -/
def ingest_data {α Doc : Type} [DecidableEq α]
    (mkDF : List Doc → DataFrame α) (naSentinel : α)
    (split : DataFrame α → DataFrame α × DataFrame α)
    (cfg : DataIngestionConfig) (data : List Doc) :
    Except PipelineError DataIngestArtifact := do
  let dataframe ← export_collection_as_dataframe mkDF naSentinel data
  let _split_sets := split dataframe
  .ok {
    trained_file_path := cfg.training_file_path
    test_file_path := cfg.test_file_path
  }

/-- The report entry a single base column contributes, factored out of the
drift loop: `none` when the column is skipped (empty side) — a lookup
failure also yields `none` here, though the loop turns it into an error. -/
def columnDriftEntry {α : Type} (ks : List α → List α → ℚ) (threshold : ℚ)
    (current : DataFrame α) (col : Column α) : Option (String × DriftEntry) :=
  match lookupColumn current col.name with
  | none => none
  | some cvals =>
    let d1 := dropna col.values
    let d2 := dropna cvals
    if d1.isEmpty || d2.isEmpty then none
    else
      let p := ks d1 d2
      some (col.name, ⟨p, decide (p < threshold)⟩)

/-- The drift report produced for a list of base columns, written the way
the spec words it (§4.3): for each base column in order, drop missing values
on each side, skip the column when either side is empty, otherwise record
the p-value and `drift_detected = (p_value < threshold)` under the name of the
column. -/
def reportOf {α : Type} (ks : List α → List α → ℚ) (threshold : ℚ)
    (current : DataFrame α) (cols : List (Column α)) : DriftReport :=
  cols.filterMap (columnDriftEntry ks threshold current)

/-- Follows the words of the spec (section 4.3 Drift Detector): the operation
`detect_drift(base_dataset, current_dataset, threshold) ->
(bool overall_status, DriftReport)` with
`overall_status = NOT (any column flagged drift_detected)`. -/
def spec_detect_drift {α : Type} (ks : List α → List α → ℚ)
    (base current : DataFrame α) (threshold : ℚ) : Bool × DriftReport :=
  let report := reportOf ks threshold current base
  (!(report.any fun e => e.2.drift_detected), report)

/-- Fixture: a two-valued dataframe column used by the witnesses. -/
def demoColumn : Column ℚ := ⟨"A", [some 1, some 2, none]⟩

/-- Fixture: a one-column dataframe used by the witnesses. -/
def demoDF : DataFrame ℚ := [demoColumn]

/-- Fixture: a column named like `demoColumn` but entirely missing. -/
def demoEmptyColumn : Column ℚ := ⟨"A", [none, none]⟩

/-- Fixture: a dataframe whose sole column is entirely missing. -/
def demoEmptyColDF : DataFrame ℚ := [demoEmptyColumn]

/-- Fixture: a two-sample test that always reports a p-value of 1. -/
def demoKS : List ℚ → List ℚ → ℚ := fun _ _ => 1

/-- Fixture: a CSV reader that succeeds with `demoDF` on every path. -/
def demoReadOK : String → Except PipelineError (DataFrame ℚ) :=
  fun _ => .ok demoDF

/-- Fixture: a CSV reader that always fails with a wrapped read error. -/
def demoReadErr : String → Except PipelineError (DataFrame ℚ) :=
  fun _ => .error (.networkSecurityException "read failure")

/-- Fixture: a validation-stage configuration with symbolic paths. -/
def demoVCfg : DataValidationConfig :=
  ⟨"dv", "valid", "invalid", "vtrain.csv", "vtest.csv",
   "itrain.csv", "itest.csv", "report.yaml"⟩

/-- Fixture: an ingestion artifact with symbolic paths. -/
def demoIngestArt : DataIngestArtifact := ⟨"train.csv", "test.csv"⟩

/-- Fixture: a transformation-stage configuration with symbolic paths. -/
def demoTCfg : DataTransformationConfig :=
  ⟨"preprocessing.pkl", "train.npy", "test.npy"⟩

/-- Fixture: a validation artifact feeding the transformation witnesses. -/
def demoValArt : DataValidationArtifact :=
  ⟨true, "vtrain.csv", "vtest.csv", none, none, "report.yaml"⟩

/-- Fixture: an ingestion-stage configuration with symbolic paths. -/
def demoICfg : DataIngestionConfig := ⟨"fs.csv", "train.csv", "test.csv"⟩

/-- Fixture: a degenerate tabular collaborator producing no columns. -/
def demoMkDF : List Unit → DataFrame ℚ := fun _ => []

/-- Fixture: a degenerate splitter duplicating the dataframe. -/
def demoSplit : DataFrame ℚ → DataFrame ℚ × DataFrame ℚ := fun df => (df, df)

/-- Fixture: a trivial imputer fitting step with unit state. -/
def demoFit : DataFrame ℚ → Unit := fun _ => ()

/-- Fixture: a trivial imputer transform producing no rows. -/
def demoTransform : Unit → DataFrame ℚ → List (List ℚ) := fun _ _ => []

/-- Binding a successful `Except` value reduces to the continuation. -/
theorem exc_ok_bind {ε α β : Type} (x : α) (f : α → Except ε β) :
    (Except.ok x : Except ε α) >>= f = f x := rfl

/-- Binding a failed `Except` value propagates the error unchanged. -/
theorem exc_error_bind {ε α β : Type} (e : ε) (f : α → Except ε β) :
    (Except.error e : Except ε α) >>= f = .error e := rfl

/-- The conjunction of negations over a list is the negated disjunction. -/
theorem all_not_eq_not_any {β : Type} (l : List β) (p : β → Bool) :
    (l.all fun x => !p x) = !(l.any p) := by
  induction l with
  | nil => rfl
  | cons a l ih => simp [List.all_cons, List.any_cons, Bool.not_or, ih]

/-- Column lookup succeeds exactly for the column names of the dataset. -/
theorem lookupColumn_isSome_iff {α : Type} (df : DataFrame α) (c : String) :
    (lookupColumn df c).isSome ↔ c ∈ columnNames df := by
  simp [lookupColumn, columnNames, List.find?_isSome, List.mem_map]

/-- Column lookup fails exactly for names outside the columns of the dataset. -/
theorem lookupColumn_eq_none_iff {α : Type} (df : DataFrame α) (c : String) :
    lookupColumn df c = none ↔ c ∉ columnNames df := by
  rw [← Option.not_isSome_iff_eq_none, not_iff_not, lookupColumn_isSome_iff]

/-- A column with an empty side after dropping missing values contributes no
report entry. -/
theorem columnDriftEntry_skip {α : Type} {ks : List α → List α → ℚ}
    {threshold : ℚ} {current : DataFrame α} {col : Column α}
    {cvals : List (Option α)}
    (hlk : lookupColumn current col.name = some cvals)
    (hemp : ((dropna col.values).isEmpty || (dropna cvals).isEmpty) = true) :
    columnDriftEntry ks threshold current col = none := by
  simp [columnDriftEntry, hlk, hemp]

/-- A compared column contributes the entry with its p-value and the
threshold comparison. -/
theorem columnDriftEntry_record {α : Type} {ks : List α → List α → ℚ}
    {threshold : ℚ} {current : DataFrame α} {col : Column α}
    {cvals : List (Option α)}
    (hlk : lookupColumn current col.name = some cvals)
    (hemp : ((dropna col.values).isEmpty || (dropna cvals).isEmpty) = false) :
    columnDriftEntry ks threshold current col =
      some (col.name, ⟨ks (dropna col.values) (dropna cvals),
        decide (ks (dropna col.values) (dropna cvals) < threshold)⟩) := by
  simp [columnDriftEntry, hlk, hemp]

/-- A report entry is always keyed by the name of the contributing column. -/
theorem columnDriftEntry_key {α : Type} {ks : List α → List α → ℚ}
    {threshold : ℚ} {current : DataFrame α} {col : Column α}
    {e : String × DriftEntry}
    (h : columnDriftEntry ks threshold current col = some e) :
    e.1 = col.name := by
  cases hlk : lookupColumn current col.name with
  | none => simp [columnDriftEntry, hlk] at h
  | some cvals =>
    cases hemp : ((dropna col.values).isEmpty || (dropna cvals).isEmpty) with
    | false =>
      rw [columnDriftEntry_record hlk hemp] at h
      cases h
      rfl
    | true => rw [columnDriftEntry_skip hlk hemp] at h; cases h

/-- Unfolding the drift loop at a base column missing from the current
dataset: the lookup raises and the loop aborts. -/
theorem detect_drift_loop_cons_none {α : Type} {ks : List α → List α → ℚ}
    {threshold : ℚ} {current : DataFrame α} {col : Column α}
    {rest : List (Column α)} {st : Bool} {rep : DriftReport}
    (hlk : lookupColumn current col.name = none) :
    detect_drift_loop ks threshold current (col :: rest) st rep =
      .error (.networkSecurityException ("KeyError: " ++ col.name)) := by
  simp [detect_drift_loop, hlk]

/-- Unfolding the drift loop at a skipped column (an empty side): the
accumulators pass through unchanged. -/
theorem detect_drift_loop_cons_skip {α : Type} {ks : List α → List α → ℚ}
    {threshold : ℚ} {current : DataFrame α} {col : Column α}
    {cvals : List (Option α)} {rest : List (Column α)} {st : Bool}
    {rep : DriftReport}
    (hlk : lookupColumn current col.name = some cvals)
    (hemp : ((dropna col.values).isEmpty || (dropna cvals).isEmpty) = true) :
    detect_drift_loop ks threshold current (col :: rest) st rep =
      detect_drift_loop ks threshold current rest st rep := by
  simp [detect_drift_loop, hlk, hemp]

/-- Unfolding the drift loop at a compared column: the entry is appended and
a detected drift forces the status to `false`. -/
theorem detect_drift_loop_cons_record {α : Type} {ks : List α → List α → ℚ}
    {threshold : ℚ} {current : DataFrame α} {col : Column α}
    {cvals : List (Option α)} {rest : List (Column α)} {st : Bool}
    {rep : DriftReport}
    (hlk : lookupColumn current col.name = some cvals)
    (hemp : ((dropna col.values).isEmpty || (dropna cvals).isEmpty) = false) :
    detect_drift_loop ks threshold current (col :: rest) st rep =
      detect_drift_loop ks threshold current rest
        (if decide (ks (dropna col.values) (dropna cvals) < threshold)
          then false else st)
        (rep ++ [(col.name, ⟨ks (dropna col.values) (dropna cvals),
          decide (ks (dropna col.values) (dropna cvals) < threshold)⟩)]) := by
  simp [detect_drift_loop, hlk, hemp]

/-- A successful drift loop yields exactly the spec-shaped report appended
to the incoming accumulator, and the conjunction of "no drift" over the new
entries folded onto the incoming status. -/
theorem detect_drift_loop_ok_spec {α : Type} {ks : List α → List α → ℚ}
    {threshold : ℚ} {current : DataFrame α} :
    ∀ (cols : List (Column α)) (st0 : Bool) (rep0 : DriftReport)
      (st : Bool) (rep : DriftReport),
      detect_drift_loop ks threshold current cols st0 rep0 = .ok (st, rep) →
      rep = rep0 ++ reportOf ks threshold current cols ∧
      st = (st0 && ((reportOf ks threshold current cols).all
        fun e => !e.2.drift_detected)) := by
  intro cols
  induction cols with
  | nil =>
    intro st0 rep0 st rep h
    simp only [detect_drift_loop, Except.ok.injEq, Prod.mk.injEq] at h
    obtain ⟨hst, hrep⟩ := h
    subst hst
    subst hrep
    simp [reportOf]
  | cons col rest ih =>
    intro st0 rep0 st rep h
    cases hlk : lookupColumn current col.name with
    | none => rw [detect_drift_loop_cons_none hlk] at h; cases h
    | some cvals =>
      cases hemp : ((dropna col.values).isEmpty || (dropna cvals).isEmpty) with
      | true =>
        rw [detect_drift_loop_cons_skip hlk hemp] at h
        obtain ⟨hrep, hst⟩ := ih st0 rep0 st rep h
        constructor
        · rw [hrep]
          simp [reportOf, List.filterMap_cons, columnDriftEntry_skip hlk hemp]
        · rw [hst]
          simp [reportOf, List.filterMap_cons, columnDriftEntry_skip hlk hemp]
      | false =>
        rw [detect_drift_loop_cons_record hlk hemp] at h
        obtain ⟨hrep, hst⟩ := ih _ _ st rep h
        constructor
        · rw [hrep]
          simp [reportOf, List.filterMap_cons,
            columnDriftEntry_record hlk hemp]
        · rw [hst]
          simp only [reportOf, List.filterMap_cons,
            columnDriftEntry_record hlk hemp, List.all_cons]
          cases hdd : decide (ks (dropna col.values) (dropna cvals) < threshold) with
          | false => simp [hdd]
          | true => simp [hdd]

/-- When every base column is present in the current dataset, the drift loop
succeeds and computes exactly the spec-shaped status and report. -/
theorem detect_drift_loop_total {α : Type} {ks : List α → List α → ℚ}
    {threshold : ℚ} {current : DataFrame α} :
    ∀ (cols : List (Column α)) (st0 : Bool) (rep0 : DriftReport),
      (∀ col ∈ cols, (lookupColumn current col.name).isSome) →
      detect_drift_loop ks threshold current cols st0 rep0 =
        .ok (st0 && ((reportOf ks threshold current cols).all
              fun e => !e.2.drift_detected),
          rep0 ++ reportOf ks threshold current cols) := by
  intro cols
  induction cols with
  | nil =>
    intro st0 rep0 _
    simp [detect_drift_loop, reportOf]
  | cons col rest ih =>
    intro st0 rep0 hall
    obtain ⟨cvals, hlk⟩ :=
      Option.isSome_iff_exists.mp (hall col (List.mem_cons_self col rest))
    have hrest : ∀ c ∈ rest, (lookupColumn current c.name).isSome :=
      fun c hc => hall c (List.mem_cons_of_mem col hc)
    cases hemp : ((dropna col.values).isEmpty || (dropna cvals).isEmpty) with
    | true =>
      rw [detect_drift_loop_cons_skip hlk hemp, ih st0 rep0 hrest]
      simp [reportOf, List.filterMap_cons, columnDriftEntry_skip hlk hemp]
    | false =>
      rw [detect_drift_loop_cons_record hlk hemp, ih _ _ hrest]
      simp only [reportOf, List.filterMap_cons,
        columnDriftEntry_record hlk hemp, List.all_cons, Except.ok.injEq,
        Prod.mk.injEq, List.append_assoc, List.singleton_append, and_true]
      cases hdd : decide (ks (dropna col.values) (dropna cvals) < threshold) with
      | false => simp [hdd]
      | true => simp [hdd]

/-- A base column missing from the current dataset makes the whole drift
loop abort with an error, wherever the column sits in the iteration. -/
theorem detect_drift_loop_error {α : Type} {ks : List α → List α → ℚ}
    {threshold : ℚ} {current : DataFrame α} :
    ∀ (cols : List (Column α)) (st0 : Bool) (rep0 : DriftReport)
      (col : Column α), col ∈ cols → lookupColumn current col.name = none →
      ∃ e, detect_drift_loop ks threshold current cols st0 rep0 = .error e := by
  intro cols
  induction cols with
  | nil =>
    intro st0 rep0 col h _
    exact absurd h (List.not_mem_nil col)
  | cons c rest ih =>
    intro st0 rep0 col hmem hnone
    cases hlk : lookupColumn current c.name with
    | none => exact ⟨_, detect_drift_loop_cons_none hlk⟩
    | some cvals =>
      have hcr : col ∈ rest := by
        rcases List.mem_cons.mp hmem with rfl | h
        · rw [hlk] at hnone; cases hnone
        · exact h
      cases hemp : ((dropna c.values).isEmpty || (dropna cvals).isEmpty) with
      | true =>
        rw [detect_drift_loop_cons_skip hlk hemp]
        exact ih st0 rep0 col hcr hnone
      | false =>
        rw [detect_drift_loop_cons_record hlk hemp]
        exact ih _ _ col hcr hnone

/-- Every report entry stems from a base column carrying the key of the entry. -/
theorem reportOf_key_mem {α : Type} {ks : List α → List α → ℚ}
    {threshold : ℚ} {current : DataFrame α} {cols : List (Column α)}
    {e : String × DriftEntry} (he : e ∈ reportOf ks threshold current cols) :
    ∃ col, col ∈ cols ∧ columnDriftEntry ks threshold current col = some e ∧
      e.1 = col.name := by
  obtain ⟨col, hcol, hf⟩ := List.mem_filterMap.mp he
  exact ⟨col, hcol, hf, columnDriftEntry_key hf⟩

/-- With pairwise-distinct base column names, the report entry looked up
under the name of a contributing column is the entry of that column. -/
theorem reportOf_lookup {α : Type} {ks : List α → List α → ℚ}
    {threshold : ℚ} {current : DataFrame α} :
    ∀ (cols : List (Column α)) (col : Column α) (ent : DriftEntry),
      (cols.map Column.name).Nodup → col ∈ cols →
      columnDriftEntry ks threshold current col = some (col.name, ent) →
      (reportOf ks threshold current cols).lookup col.name = some ent := by
  intro cols
  induction cols with
  | nil =>
    intro col ent _ h
    exact absurd h (List.not_mem_nil col)
  | cons c rest ih =>
    intro col ent hnd hmem hentry
    have hnd1 : c.name ∉ rest.map Column.name := (List.nodup_cons.mp hnd).1
    have hnd2 : (rest.map Column.name).Nodup := (List.nodup_cons.mp hnd).2
    rcases List.mem_cons.mp hmem with rfl | hr
    · rw [reportOf, List.filterMap_cons, hentry]
      simp [List.lookup]
    · have hne : col.name ≠ c.name := by
        intro heq
        exact hnd1 (heq ▸ List.mem_map_of_mem Column.name hr)
      cases hc : columnDriftEntry ks threshold current c with
      | none =>
        rw [reportOf, List.filterMap_cons, hc]
        exact ih col ent hnd2 hr hentry
      | some e =>
        obtain ⟨k, v⟩ := e
        have hkey : k = c.name := columnDriftEntry_key hc
        subst hkey
        rw [reportOf, List.filterMap_cons, hc]
        have hstep : List.lookup col.name
            ((c.name, v) :: List.filterMap (columnDriftEntry ks threshold current) rest)
            = List.lookup col.name
              (List.filterMap (columnDriftEntry ks threshold current) rest) := by
          simp [List.lookup, beq_false_of_ne hne]
        exact hstep.trans (ih col ent hnd2 hr hentry)

/-- C1: for every base column (iterated in the column order of the base dataset),
after dropping missing values from the base column and the current column,
if both resulting sequences are non-empty, `detect_dataset_drift` runs the
two-sample test on them and the produced report records, under that
name of the column, the entry whose `p_value` is the test result and whose
`drift_detected` holds exactly when `p_value < threshold`; the threshold
defaults to `0.05`. -/
theorem C1_drift_entry_recorded {α : Type} {ks : List α → List α → ℚ}
    {threshold : ℚ} {base current : DataFrame α} {col : Column α}
    {cvals : List (Option α)} {st : Bool} {rep : DriftReport}
    (hnd : (columnNames base).Nodup) (hmem : col ∈ base)
    (hlk : lookupColumn current col.name = some cvals)
    (h1 : (dropna col.values).isEmpty = false)
    (h2 : (dropna cvals).isEmpty = false)
    (hok : detect_dataset_drift ks base current threshold = .ok (st, rep)) :
    rep.lookup col.name =
      some ⟨ks (dropna col.values) (dropna cvals),
        decide (ks (dropna col.values) (dropna cvals) < threshold)⟩ ∧
      default_threshold = 5 / 100 := by
  have hemp : ((dropna col.values).isEmpty || (dropna cvals).isEmpty) = false := by
    rw [h1, h2]
    rfl
  obtain ⟨hrep, hst⟩ := detect_drift_loop_ok_spec base true [] st rep hok
  subst hrep
  refine ⟨?_, by unfold default_threshold; rw [Rat.mkRat_eq_div]; norm_num⟩
  simp only [List.nil_append]
  exact reportOf_lookup base col _ hnd hmem (columnDriftEntry_record hlk hemp)

/-- C1 witness: the fixture run compares the column `A` against itself,
records p-value 1 and no drift. -/
theorem C1_drift_entry_recorded_witness :
    List.lookup "A" [("A", (⟨1, false⟩ : DriftEntry))] =
      some ⟨demoKS (dropna demoColumn.values) (dropna demoColumn.values),
        decide (demoKS (dropna demoColumn.values) (dropna demoColumn.values)
          < default_threshold)⟩ ∧
      default_threshold = 5 / 100 :=
  @C1_drift_entry_recorded ℚ demoKS default_threshold demoDF demoDF demoColumn
    demoColumn.values true [("A", ⟨1, false⟩)] (by decide) (by decide) (by rfl)
    (by rfl) (by rfl) (by rfl)

/-- C2: the overall status of `detect_dataset_drift` is `false` exactly when
at least one entry of the produced report flags drift; in particular it is
`true` when the report is empty or all entries are unflagged. -/
theorem C2_overall_status_iff {α : Type} {ks : List α → List α → ℚ}
    {threshold : ℚ} {base current : DataFrame α} {st : Bool}
    {rep : DriftReport}
    (hok : detect_dataset_drift ks base current threshold = .ok (st, rep)) :
    st = false ↔ ∃ e ∈ rep, e.2.drift_detected = true := by
  obtain ⟨hrep, hst⟩ := detect_drift_loop_ok_spec base true [] st rep hok
  subst hrep
  rw [hst]
  simp only [List.nil_append, Bool.true_and, all_not_eq_not_any]
  simp [List.any_eq_true]

/-- C2 witness: the fixture run has overall status `true` and a report with
no flagged entry. -/
theorem C2_overall_status_iff_witness :
    (true : Bool) = false ↔
      ∃ e ∈ [("A", (⟨1, false⟩ : DriftEntry))], e.2.drift_detected = true :=
  @C2_overall_status_iff ℚ demoKS default_threshold demoDF demoDF true
    [("A", ⟨1, false⟩)] (by rfl)

/-- C3: a base column with an empty side after dropping missing values is
skipped: no comparison is performed, no drift is flagged for it, and its
name does not occur among the keys of the produced report. -/
theorem C3_empty_side_column_omitted {α : Type} {ks : List α → List α → ℚ}
    {threshold : ℚ} {base current : DataFrame α} {col : Column α}
    {cvals : List (Option α)} {st : Bool} {rep : DriftReport}
    (hnd : (columnNames base).Nodup) (hmem : col ∈ base)
    (hlk : lookupColumn current col.name = some cvals)
    (hemp : (dropna col.values).isEmpty = true ∨ (dropna cvals).isEmpty = true)
    (hok : detect_dataset_drift ks base current threshold = .ok (st, rep)) :
    col.name ∉ rep.map Prod.fst := by
  obtain ⟨hrep, hst⟩ := detect_drift_loop_ok_spec base true [] st rep hok
  subst hrep
  simp only [List.nil_append]
  intro hkey
  obtain ⟨e, he, hename⟩ := List.mem_map.mp hkey
  obtain ⟨c2, hc2mem, hc2entry, hc2key⟩ := reportOf_key_mem he
  have hcc : c2 = col := by
    apply List.inj_on_of_nodup_map hnd hc2mem hmem
    rw [← hc2key, hename]
  have hnone : columnDriftEntry ks threshold current col = none := by
    have hemp2 : ((dropna col.values).isEmpty || (dropna cvals).isEmpty) = true := by
      rcases hemp with h | h <;> simp [h]
    exact columnDriftEntry_skip hlk hemp2
  rw [hcc, hnone] at hc2entry
  cases hc2entry

/-- C3 witness: an all-missing base column `A` is omitted from the report. -/
theorem C3_empty_side_column_omitted_witness :
    "A" ∉ ([] : DriftReport).map Prod.fst :=
  @C3_empty_side_column_omitted ℚ demoKS default_threshold demoEmptyColDF
    demoDF demoEmptyColumn demoColumn.values true [] (by decide) (by decide)
    (by rfl) (Or.inl (by rfl)) (by rfl)

/-- C9: a base column absent from the current dataset is not skipped: the
whole detection aborts with the wrapped error, producing no status/report
pair — hence no report entry for any column — in that run. -/
theorem C9_missing_column_aborts {α : Type} {ks : List α → List α → ℚ}
    {threshold : ℚ} {base current : DataFrame α} {col : Column α}
    (hmem : col ∈ base) (hnone : lookupColumn current col.name = none) :
    (∃ e, detect_dataset_drift ks base current threshold = .error e) ∧
      ∀ st rep, detect_dataset_drift ks base current threshold ≠ .ok (st, rep) := by
  obtain ⟨e, he⟩ := detect_drift_loop_error base true [] col hmem hnone
  refine ⟨⟨e, he⟩, ?_⟩
  intro st rep hok
  cases he.symm.trans hok

/-- C9 witness: detecting drift of the fixture against an empty current
dataset aborts. -/
theorem C9_missing_column_aborts_witness :
    (∃ e, detect_dataset_drift demoKS demoDF ([] : DataFrame ℚ)
        default_threshold = .error e) ∧
      ∀ st rep, detect_dataset_drift demoKS demoDF ([] : DataFrame ℚ)
        default_threshold ≠ .ok (st, rep) :=
  @C9_missing_column_aborts ℚ demoKS default_threshold demoDF [] demoColumn
    (by decide) (by rfl)

/-- C4: the `validation_status` of the artifact equals the AND of "no drift
detected" over all compared columns (the entries of the drift report), and
it is independent of the column-count checks: running the orchestrator with
any two schemas — hence any combination of matching or mismatching column
counts — yields identical results. -/
theorem C4_validation_status_schema_independent {α : Type}
    {ks : List α → List α → ℚ}
    {readData : String → Except PipelineError (DataFrame α)}
    (s1 s2 : List String) {cfg : DataValidationConfig}
    {ingest : DataIngestArtifact} {train test : DataFrame α}
    {st : Bool} {rep : DriftReport}
    (htrain : readData ingest.trained_file_path = .ok train)
    (htest : readData ingest.test_file_path = .ok test)
    (hdrift : detect_dataset_drift ks train test default_threshold = .ok (st, rep)) :
    initiate_data_validation ks readData s1 cfg ingest =
      initiate_data_validation ks readData s2 cfg ingest ∧
    ∃ art, initiate_data_validation ks readData s1 cfg ingest = .ok art ∧
      art.validation_status = rep.all fun e => !e.2.drift_detected := by
  obtain ⟨hrep, hst⟩ := detect_drift_loop_ok_spec train true [] st rep hdrift
  constructor
  · simp only [initiate_data_validation, htrain, htest, exc_ok_bind]
  · refine ⟨⟨st, cfg.valid_train_file_path, cfg.valid_test_file_path,
      none, none, cfg.drift_report_file_path⟩, ?_, ?_⟩
    · simp [initiate_data_validation, htrain, htest, hdrift, exc_ok_bind]
    · show st = rep.all fun e => !e.2.drift_detected
      rw [hst, hrep]
      simp

/-- C4 witness: two schemas of different lengths produce the same artifact
on the fixture run, whose status is the AND over the report. -/
theorem C4_validation_status_schema_independent_witness :
    initiate_data_validation demoKS demoReadOK ["A"] demoVCfg demoIngestArt =
      initiate_data_validation demoKS demoReadOK [] demoVCfg demoIngestArt ∧
    ∃ art, initiate_data_validation demoKS demoReadOK ["A"] demoVCfg demoIngestArt
        = .ok art ∧
      art.validation_status =
        [("A", (⟨1, false⟩ : DriftEntry))].all fun e => !e.2.drift_detected :=
  @C4_validation_status_schema_independent ℚ demoKS demoReadOK ["A"] []
    demoVCfg demoIngestArt demoDF demoDF true [("A", ⟨1, false⟩)]
    (by rfl) (by rfl) (by rfl)

/-- C5: the column-count validator is total (returns a boolean, never
raising on a mismatch) and returns `true` exactly when the column count of the
dataset equals the count of the declared schema column list — so `false`
for any other count. -/
theorem C5_validate_number_of_columns_iff {α : Type}
    (schemaColumns : List String) (df : DataFrame α) :
    validate_number_of_columns schemaColumns df = true ↔
      (columnNames df).length = schemaColumns.length := by
  simp [validate_number_of_columns]
  exact eq_comm

/-- C6: on any pair of datasets whose base columns all occur in the current
dataset, `detect_dataset_drift` produces exactly the pair described by the
spec operation `detect_drift`: the boolean overall status together with the
drift report mapping (the mapping being what is written to the report
path). -/
theorem C6_returns_status_report_pair {α : Type} {ks : List α → List α → ℚ}
    {threshold : ℚ} {base current : DataFrame α}
    (hall : ∀ col ∈ base, (lookupColumn current col.name).isSome) :
    detect_dataset_drift ks base current threshold =
      .ok (spec_detect_drift ks base current threshold) := by
  have h := @detect_drift_loop_total α ks threshold current base true [] hall
  simp only [spec_detect_drift]
  refine Eq.trans h ?_
  simp [all_not_eq_not_any]

/-- C6 witness: the fixture pair evaluates to the spec-described pair. -/
theorem C6_returns_status_report_pair_witness :
    detect_dataset_drift demoKS demoDF demoDF default_threshold =
      .ok (spec_detect_drift demoKS demoDF demoDF default_threshold) :=
  @C6_returns_status_report_pair ℚ demoKS default_threshold demoDF demoDF
    (by decide)

/-- C7: every artifact returned by a successful validation run carries
`None` in both invalid-path fields; no execution path of the orchestrator
populates them. -/
theorem C7_invalid_paths_always_none {α : Type} {ks : List α → List α → ℚ}
    {readData : String → Except PipelineError (DataFrame α)}
    {schemaColumns : List String} {cfg : DataValidationConfig}
    {ingest : DataIngestArtifact} {art : DataValidationArtifact}
    (hok : initiate_data_validation ks readData schemaColumns cfg ingest = .ok art) :
    art.invalid_train_file_path = none ∧ art.invalid_test_file_path = none := by
  simp only [initiate_data_validation] at hok
  cases htrain : readData ingest.trained_file_path with
  | error e => rw [htrain, exc_error_bind] at hok; cases hok
  | ok train =>
    rw [htrain, exc_ok_bind] at hok
    cases htest : readData ingest.test_file_path with
    | error e => rw [htest, exc_error_bind] at hok; cases hok
    | ok test =>
      rw [htest, exc_ok_bind] at hok
      cases hdet : detect_dataset_drift ks train test default_threshold with
      | error e => rw [hdet, exc_error_bind] at hok; cases hok
      | ok res =>
        rw [hdet, exc_ok_bind] at hok
        cases hok
        exact ⟨rfl, rfl⟩

/-- C7 witness: the fixture run returns the artifact with both invalid-path
fields `None`. -/
theorem C7_invalid_paths_always_none_witness :
    demoValArt.invalid_train_file_path = none ∧
      demoValArt.invalid_test_file_path = none :=
  @C7_invalid_paths_always_none ℚ demoKS demoReadOK ["A"] demoVCfg
    demoIngestArt demoValArt (by rfl)

/-- C8: each embedded public stage operation (ingestion, validation,
transformation) either returns its artifact or fails with the single
wrapped exception kind — a `NetworkSecurityException` carrying a cause —
and a failing internal step surfaces as exactly that wrapped error with no
artifact: the validation orchestrator propagates a failing read unchanged. -/
theorem C8_single_wrapped_error_kind {α Doc P : Type} [DecidableEq α]
    (mkDF : List Doc → DataFrame α) (naSentinel : α)
    (split : DataFrame α → DataFrame α × DataFrame α)
    (icfg : DataIngestionConfig) (data : List Doc)
    (ks : List α → List α → ℚ)
    (readData : String → Except PipelineError (DataFrame α))
    (schemaColumns : List String) (vcfg : DataValidationConfig)
    (ingest : DataIngestArtifact)
    (readDataT : String → Except PipelineError (DataFrame ℚ))
    (fit : DataFrame ℚ → P) (transform : P → DataFrame ℚ → List (List ℚ))
    (tcfg : DataTransformationConfig) (valArt : DataValidationArtifact) :
    (∀ e, ingest_data mkDF naSentinel split icfg data = .error e →
      ∃ c, e = .networkSecurityException c) ∧
    (∀ e, initiate_data_validation ks readData schemaColumns vcfg ingest = .error e →
      ∃ c, e = .networkSecurityException c) ∧
    (∀ e, initiate_data_transformation readDataT fit transform tcfg valArt = .error e →
      ∃ c, e = .networkSecurityException c) ∧
    (∀ e, readData ingest.trained_file_path = .error e →
      initiate_data_validation ks readData schemaColumns vcfg ingest = .error e) := by
  refine ⟨?_, ?_, ?_, ?_⟩
  · intro e _
    cases e
    exact ⟨_, rfl⟩
  · intro e _
    cases e
    exact ⟨_, rfl⟩
  · intro e _
    cases e
    exact ⟨_, rfl⟩
  · intro e he
    simp only [initiate_data_validation, he, exc_error_bind]

/-- C8 witness: an empty collection aborts ingestion, and a failing read
aborts validation and transformation, each with the wrapped kind. -/
theorem C8_single_wrapped_error_kind_witness :
    (∃ c, PipelineError.networkSecurityException
        "La collection est vide ou inaccessible." = .networkSecurityException c) ∧
    (∃ c, PipelineError.networkSecurityException "read failure"
        = .networkSecurityException c) ∧
    (∃ c, PipelineError.networkSecurityException "read failure"
        = .networkSecurityException c) ∧
    initiate_data_validation demoKS demoReadErr ["A"] demoVCfg demoIngestArt
      = .error (.networkSecurityException "read failure") := by
  obtain ⟨h1, h2, h3, h4⟩ := C8_single_wrapped_error_kind demoMkDF (0 : ℚ)
    demoSplit demoICfg ([] : List Unit) demoKS demoReadErr ["A"] demoVCfg
    demoIngestArt demoReadErr demoFit demoTransform demoTCfg demoValArt
  exact ⟨h1 _ (by rfl), h2 _ (by rfl), h3 _ (by rfl), h4 _ (by rfl)⟩

/-- C10: when the target column `Result` is absent from either validated
split, the presence check of the transformation only logs — there is no early
return — and the subsequent drop of the target raises, so the
transformation aborts with the wrapped error and never returns an
artifact. -/
theorem C10_missing_target_aborts {P : Type}
    {readData : String → Except PipelineError (DataFrame ℚ)}
    {fit : DataFrame ℚ → P} {transform : P → DataFrame ℚ → List (List ℚ)}
    {cfg : DataTransformationConfig} {valArt : DataValidationArtifact}
    {train test : DataFrame ℚ}
    (htrain : readData valArt.valid_train_file_path = .ok train)
    (htest : readData valArt.valid_test_file_path = .ok test)
    (habs : TARGET_COLUMN ∉ columnNames train ∨ TARGET_COLUMN ∉ columnNames test) :
    ∃ e, initiate_data_transformation readData fit transform cfg valArt
        = .error e ∧
      ∀ art, initiate_data_transformation readData fit transform cfg valArt
        ≠ .ok art := by
  by_cases htr : TARGET_COLUMN ∈ columnNames train
  · have hte : TARGET_COLUMN ∉ columnNames test := by
      rcases habs with h | h
      · exact absurd htr h
      · exact h
    obtain ⟨tvals, htlk⟩ := Option.isSome_iff_exists.mp
      ((lookupColumn_isSome_iff train TARGET_COLUMN).mpr htr)
    have heq : initiate_data_transformation readData fit transform cfg valArt
        = .error (.networkSecurityException ("KeyError: " ++ TARGET_COLUMN)) := by
      simp [initiate_data_transformation, dropColumns, selectColumn, htrain,
        htest, htlk, htr, hte, exc_ok_bind, exc_error_bind]
    exact ⟨_, heq, fun art h => by rw [heq] at h; cases h⟩
  · have heq : initiate_data_transformation readData fit transform cfg valArt
        = .error (.networkSecurityException ("KeyError: " ++ TARGET_COLUMN)) := by
      simp [initiate_data_transformation, dropColumns, htrain, htest, htr,
        exc_ok_bind, exc_error_bind]
    exact ⟨_, heq, fun art h => by rw [heq] at h; cases h⟩

/-- C10 witness: the fixture split lacks `Result`, so the transformation
aborts. -/
theorem C10_missing_target_aborts_witness :
    ∃ e, initiate_data_transformation demoReadOK demoFit demoTransform
        demoTCfg demoValArt = .error e ∧
      ∀ art, initiate_data_transformation demoReadOK demoFit demoTransform
        demoTCfg demoValArt ≠ .ok art :=
  @C10_missing_target_aborts Unit demoReadOK demoFit demoTransform demoTCfg
    demoValArt demoDF demoDF (by rfl) (by rfl) (Or.inl (by decide))

end NetworkSecurity
